import Mathlib

/-!
Shallow embedding of `nibabies/interfaces/reports.py` (report-segment
generation) together with proofs about its behaviour.

Conventions of the embedding:
* Python strings are Lean `String`s; character-level reasoning uses
  `String.toList`.
* A Python value that may be `None` is an `Option`.
* A Python expression that may raise is modelled with `Option`/`Except`,
  `none`/`Except.error` standing for the raised exception.
* Machine integers are `Int`/`Nat` (no overflow is possible in this code).
* External effects (the smriprep/nibabies `ReconAll` command lines, the
  on-disk `mcribs.log` fingerprint, the log emitted by `LOGGER.warning`)
  are modelled as explicit boolean inputs resp. an explicit boolean
  "warned" component of the result.
-/

namespace Reports

/-! ### Character-list string primitives

Python string primitives (`startswith`, `in`) are modelled structurally on
`String.toList` so that every definition evaluates by kernel reduction. -/

/-- Literal match of `key` at the head of `cs`, returning the remainder. -/
def dropKey : List Char → List Char → Option (List Char)
  | [], cs => some cs
  | _ :: _, [] => none
  | p :: ps, c :: cs => if c = p then dropKey ps cs else none

/-- `pat` occurs at the head of `s` (Python `s.startswith(pat)`). -/
def startsWithSeq (pat s : List Char) : Bool :=
  (dropKey pat s).isSome

/-- `pat` occurs somewhere in `s` (Python `pat in s`). -/
def containsSeq (pat s : List Char) : Bool :=
  match s with
  | [] => pat.isEmpty
  | _ :: rest => startsWithSeq pat s || containsSeq pat rest

/-! ### `get_world_pedir` (reports.py lines 386-404) -/

/-- The fallback string returned when the world direction of phase encoding
cannot be determined (reports.py line 404). -/
def couldNotMsg : String := "Could not be determined - assuming Anterior-Posterior"

/-- `axes = (('Right', 'Left'), ('Anterior', 'Posterior'), ('Superior', 'Inferior'))`
(reports.py line 389). -/
def axesTable : List (String × String) :=
  [("Right", "Left"), ("Anterior", "Posterior"), ("Superior", "Inferior")]

/-- `ax_idcs = {'i': 0, 'j': 1, 'k': 2}` (reports.py line 390); `none` models the
`KeyError` raised by a lookup of any other key. -/
def axIdx (c : Char) : Option Nat :=
  if c = 'i' then some 0 else if c = 'j' then some 1 else if c = 'k' then some 2 else none

/-- The sequence of `flip` values visited by the nested loops
`for ax in axes: for flip in (ax, ax[::-1])` (reports.py lines 396-397). -/
def flipsList : List (String × String) :=
  axesTable.flatMap (fun ax => [ax, (ax.2, ax.1)])

/-- Body of the inner loop (reports.py lines 398-399): Python indexes the pair
`flip` with the boolean `not inv` (`False` selects the first component), tests
`flip[not inv].startswith(axcode)` and on success returns `'-'.join(flip)`. -/
def tryFlip (axcode : Char) (inv : Bool) (flip : String × String) : Option String :=
  if startsWithSeq [axcode] (if inv then flip.1 else flip.2).toList then
    some (flip.1 ++ "-" ++ flip.2)
  else
    none

/-- The double loop of reports.py lines 396-399: the first successful flip wins. -/
def findDir (axcode : Char) (inv : Bool) : Option String :=
  flipsList.findSome? (tryFlip axcode inv)

/-- `get_world_pedir(ornt, pe_direction)` (reports.py lines 386-404).

The result is `Except.error ()` when the Python code would raise
(`pe_direction[0]` on an empty string, `ax_idcs[...]` on an unknown axis
letter, `ornt[idx]` past the end of the orientation string); otherwise it is
`Except.ok (text, warned)` where `warned` records whether `LOGGER.warning`
was called (exactly on the fallback path). -/
def get_world_pedir (ornt : String) (pe_direction : Option String) :
    Except Unit (String × Bool) :=
  match pe_direction with
  | none => Except.ok (couldNotMsg, true)
  | some pe =>
    match pe.toList with
    | [] => Except.error ()
    | c :: rest =>
      match axIdx c with
      | none => Except.error ()
      | some idx =>
        match ornt.toList.get? idx with
        | none => Except.error ()
        | some axcode =>
          match findDir axcode (rest = ['-']) with
          | some d => Except.ok (d, false)
          | none => Except.ok (couldNotMsg, true)

/-! ### `FunctionalSummary._generate_segment` pieces (reports.py lines 263-323) -/

/-- The `slice_timing` input: `traits.Enum(False, True, 'TooShort')`, possibly
left undefined (reports.py line 223 and the `isdefined` test at line 265). -/
inductive SliceTimingInput
  | undef
  | stFalse
  | stTrue
  | tooShort
deriving DecidableEq

/-- The slice-timing description (reports.py lines 265-272): a dictionary
lookup keyed by the trait value when it is defined, `'n/a'` otherwise. -/
def stcDesc : SliceTimingInput → String
  | .undef => "n/a"
  | .stTrue => "Applied"
  | .stFalse => "Not applied"
  | .tooShort => "Skipped (too few volumes)"

/-- The `registration` input: `traits.Enum('FSL', 'FreeSurfer')` (line 238). -/
inductive RegMethod
  | FSL
  | FreeSurfer
deriving DecidableEq

/-- The registration description (reports.py lines 274-285): a dictionary of
two-element lists keyed by the method, indexed by the boolean `fallback`
(Python indexes the list with `False = 0`, `True = 1`).  Note that the FSL
fallback entry hard-codes `6 dof` instead of interpolating `dof`. -/
def regDesc (method : RegMethod) (fallback : Bool) (dof : Nat) : String :=
  match method, fallback with
  | .FSL, false =>
      "FSL <code>flirt</code> with boundary-based registration (BBR) metric - "
        ++ toString dof ++ " dof"
  | .FSL, true => "FSL <code>flirt</code> rigid registration - 6 dof"
  | .FreeSurfer, false =>
      "FreeSurfer <code>bbregister</code> (boundary-based registration, BBR) - "
        ++ toString dof ++ " dof"
  | .FreeSurfer, true => "FreeSurfer <code>mri_coreg</code> - " ++ toString dof ++ " dof"

/-- Python `dummy_scans == algo_dummy_scans` where `dummy_scans` is an int or
`None` (reports.py line 290): `None == n` is `False` for every int `n`. -/
def pyEqOptInt : Option Int → Int → Bool
  | some n, m => n == m
  | none, _ => false

/-- The dummy-scan message (reports.py lines 289-302).  The three branches of
the `if`/`elif`/`else` are reproduced in order; in the first two branches
`n_dum` is the user-supplied count (`some` by the guards), in the last it is
the algorithmic count. -/
def dummyScanMsg (dummy_scans : Option Int) (algo_dummy_scans : Int) : String :=
  if pyEqOptInt dummy_scans algo_dummy_scans then
    toString (dummy_scans.getD 0)
      ++ " (Confirmed: " ++ toString algo_dummy_scans ++ " automatically detected)"
  else if dummy_scans.isSome then
    toString (dummy_scans.getD 0)
      ++ " (Warning: " ++ toString algo_dummy_scans ++ " automatically detected)"
  else
    toString algo_dummy_scans

/-- The multi-echo classification (reports.py lines 304-312): the default text
is replaced when `len(echo_idx) == 1`, then (by a second independent `if`)
when `len(echo_idx) > 2`.  `echo_idx[0]` is total under the first guard, so it
is rendered with `headD`. -/
def multiechoMsg (echo_idx : List String) : String :=
  let multiecho := "Single-echo EPI sequence."
  let n_echos := echo_idx.length
  let multiecho :=
    if n_echos = 1 then
      "Multi-echo EPI sequence: only echo " ++ echo_idx.headD ""
        ++ " processed in single-echo mode."
    else multiecho
  if n_echos > 2 then
    "Multi-echo EPI sequence: " ++ toString n_echos ++ " echoes."
  else multiecho

/-! ### The `BIDS_NAME` regular expression (reports.py lines 130-138)

`BIDS_NAME.search(series)` is anchored at the start of the string by `^`.
The pattern is `(.*\/)?` (greedy: the longest prefix ending in a slash such
that the rest of the pattern matches there, `.` not crossing a newline)
followed by `sub-[a-zA-Z0-9]+` and five optional groups
`(_(ses|task|acq|rec|run)-[a-zA-Z0-9]+)?`.  Since every group after the
subject group is optional and the `[a-zA-Z0-9]+` runs cannot extend past an
underscore, the greedy match never needs to backtrack inside the tail: each
optional group either matches maximally or is skipped. -/

/-- The character class `[a-zA-Z0-9]`. -/
def isBidsAlnum (c : Char) : Bool :=
  ('a' ≤ c && c ≤ 'z') || ('A' ≤ c && c ≤ 'Z') || ('0' ≤ c && c ≤ '9')

/-- Match `key` (e.g. `task-`) followed by a maximal nonempty `[a-zA-Z0-9]+`
run; returns the full lexeme of the named group and the remainder. -/
def matchEntity (key : List Char) (cs : List Char) : Option (List Char × List Char) :=
  match dropKey key cs with
  | none => none
  | some rest =>
    let run := rest.takeWhile isBidsAlnum
    if run.isEmpty then none
    else some (key ++ run, rest.dropWhile isBidsAlnum)

/-- One optional group `(_(key-[a-zA-Z0-9]+))?`: consume an underscore plus an
entity if possible, otherwise match the empty string at the same position. -/
def matchOptGroup (key : List Char) (cs : List Char) : Option (List Char) × List Char :=
  match cs with
  | '_' :: rest =>
    (match matchEntity key rest with
     | some (val, rem) => (some val, rem)
     | none => (none, cs))
  | _ => (none, cs)

/-- The named groups of `BIDS_NAME` (reports.py lines 130-138). -/
structure BidsGroups where
  subject_id : List Char
  session_id : Option (List Char)
  task_id : Option (List Char)
  acq_id : Option (List Char)
  rec_id : Option (List Char)
  run_id : Option (List Char)
deriving DecidableEq

/-- Match the part of `BIDS_NAME` after the optional directory prefix. -/
def matchBidsTail (cs : List Char) : Option BidsGroups :=
  match matchEntity ['s', 'u', 'b', '-'] cs with
  | none => none
  | some (subid, r1) =>
    let p2 := matchOptGroup ['s', 'e', 's', '-'] r1
    let p3 := matchOptGroup ['t', 'a', 's', 'k', '-'] p2.2
    let p4 := matchOptGroup ['a', 'c', 'q', '-'] p3.2
    let p5 := matchOptGroup ['r', 'e', 'c', '-'] p4.2
    let p6 := matchOptGroup ['r', 'u', 'n', '-'] p5.2
    some ⟨subid, p2.1, p3.1, p4.1, p5.1, p6.1⟩

/-- The candidate start positions of the subject group, as suffixes of the
input, in the order the greedy `(.*\/)?` tries them: the suffix after the
last slash first, then earlier slashes, and finally the whole string (the
group matching empty).  `.` does not match a newline, so suffixes whose
prefix contains a newline are not candidates. -/
def tailsAfterSlash : List Char → List (List Char)
  | [] => []
  | c :: rest =>
    if c = '\n' then []
    else tailsAfterSlash rest ++ (if c = '/' then [rest] else [])

/-- `BIDS_NAME.search(series)` (anchored at position 0): the first candidate
position at which the tail pattern matches.  `matchBidsTail` fails only when
the mandatory subject group fails, and every other group is optional, so this
realises the greedy semantics of `(.*\/)?`. -/
def bidsSearch (cs : List Char) : Option BidsGroups :=
  (tailsAfterSlash cs ++ [cs]).findSome? matchBidsTail

/-- `BIDS_NAME.search(series).groupdict()['task_id'][5:]` (reports.py
line 191), `none` modelling the exception raised either when `search`
returns `None` (attribute error on `groupdict`) or when the `task_id` group
is absent (subscripting `None`); the slice `[5:]` drops the `task-` prefix of
the matched lexeme. -/
def seriesTask (series : String) : Option String :=
  match bidsSearch series.toList with
  | none => none
  | some g =>
    match g.task_id with
    | none => none
    | some t => some (String.mk (t.drop 5))

/-! ### `SubjectSummary._generate_segment` (reports.py lines 129-219) -/

/-- Evaluation of a generator/comprehension that may raise: `none` as soon as
one element raises. -/
def mapOpt (f : α → Option β) : List α → Option (List β)
  | [] => some []
  | a :: l =>
    match f a, mapOpt f l with
    | some b, some bs => some (b :: bs)
    | _, _ => none

/-- The keys of `collections.Counter` over a list (each key once). -/
def uniqKeys : List String → List String
  | [] => []
  | t :: ts => let r := uniqKeys ts; if t ∈ r then r else t :: r

/-- `Counter(...).items()`: each distinct task with its multiplicity. -/
def counterItems (tasks : List String) : List (String × Nat) :=
  (uniqKeys tasks).map (fun t => (t, tasks.count t))

/-- The sort key used by `sorted(counts.items())`: Python sorts the pairs
lexicographically, and since `Counter` keys are distinct this is ordering by
task identifier. -/
def taskLe (a b : String × Nat) : Prop := a.1 ≤ b.1

instance : DecidableRel taskLe := fun a b =>
  decidable_of_iff (a.1.toList ≤ b.1.toList) String.le_iff_toList_le.symm

instance : IsTotal (String × Nat) taskLe := ⟨fun a b => le_total a.1 b.1⟩

instance : IsTrans (String × Nat) taskLe := ⟨fun _ _ _ h h' => le_trans h h'⟩

/-- `sorted(counts.items())` (reports.py line 202). -/
def subjectTaskPairs (tasks : List String) : List (String × Nat) :=
  List.insertionSort taskLe (counterItems tasks)

/-- One task line (reports.py lines 199-201). -/
def taskLine (t : String) (n : Nat) : String :=
  "\t\t\t<li>Task: " ++ t ++ " (" ++ toString n ++ " run"
    ++ (if n = 1 then "" else "s") ++ ")</li>"

/-- The `tasks` block (reports.py lines 194-204): empty when there are no
counts, otherwise header, one line per sorted task, footer, newline-joined. -/
def tasksBlock (pairs : List (String × Nat)) : String :=
  if pairs = [] then ""
  else
    String.intercalate "\n"
      (["\t\t<ul class=\"elem-desc\">"]
        ++ pairs.map (fun p => taskLine p.1 p.2)
        ++ ["\t\t</ul>"])

/-- The `recon_method` trait: `traits.Enum(None, 'freesurfer', 'infantfs',
'mcribs')` (reports.py lines 101-107). -/
inductive ReconMethod
  | rmNone
  | freesurfer
  | infantfs
  | mcribs
deriving DecidableEq

/-- How `recon_method` renders in the template (`str` of the trait value). -/
def reconMethodName : ReconMethod → String
  | .rmNone => "None"
  | .freesurfer => "freesurfer"
  | .infantfs => "infantfs"
  | .mcribs => "mcribs"

/-- The external observations the recon-status branches make (reports.py
lines 146-178): whether the smriprep `ReconAll` resp. nibabies
`InfantReconAll` command line starts with `echo`, and whether the
`scripts/mcribs.log` fingerprint file exists. -/
structure ReconProbe where
  fsCmdlineEcho : Bool
  infantfsCmdlineEcho : Bool
  mcribsLogExists : Bool

/-- Python truthiness of the `subjects_dir` input (reports.py line 143):
an undefined trait and an empty path are both falsy. -/
def configuredDir : Option String → Bool
  | none => false
  | some s => !(s = "")

/-- The `recon_status` local variable (reports.py lines 142-178): `none`
models the branch structure leaving it unassigned (subjects directory set
but `recon_method` is `None`), which raises `UnboundLocalError` when the
name is read at line 218. -/
def reconStatus (subjects_dir : Option String) (m : ReconMethod) (p : ReconProbe) :
    Option String :=
  if !configuredDir subjects_dir then some "Not run"
  else
    match m with
    | .freesurfer => some (if p.fsCmdlineEcho then "Pre-existing directory" else "Run by NiBabies")
    | .infantfs =>
        some (if p.infantfsCmdlineEcho then "Pre-existing directory" else "Run by NiBabies")
    | .mcribs => some (if p.mcribsLogExists then "Pre-existing directory" else "Run by NiBabies")
    | .rmNone => none

/-- The inputs of `SubjectSummary` (reports.py lines 88-108) that
`_generate_segment` reads.  `bold` entries are either a single file or a list
of echo files (`traits.Either(File, traits.List(File))`). -/
structure SubjectInputs where
  t1w : List String
  t2w : List String
  subjects_dir : Option String
  subject_id : String
  session_id : String
  anatomical_reference : String
  bold : Option (List (Sum String (List String)))
  std_spaces : List String
  nstd_spaces : List String
  recon_method : ReconMethod
  age : Int

/-- The ways `_generate_segment` can raise, in the order the raising
expressions are evaluated. -/
inductive SegErr
  | boldIndex
  | taskMatch
  | reconUnbound
deriving DecidableEq

/-- `s[0] if isinstance(s, list) else s` (reports.py line 188); `none` models
the `IndexError` on an empty echo list. -/
def popEcho : Sum String (List String) → Option String
  | .inl s => some s
  | .inr l => l.head?

/-- The flattened `bold_series` list (reports.py line 188). -/
def flattenBold (bold : List (Sum String (List String))) : Option (List String) :=
  mapOpt popEcho bold

/-- `self.inputs.bold if isdefined(self.inputs.bold) else []` (line 187). -/
def boldList (inp : SubjectInputs) : List (Sum String (List String)) :=
  match inp.bold with
  | none => []
  | some b => b

/-- `SUBJECT_TEMPLATE.format(...)` (reports.py lines 27-41 and 206-219). -/
def subjectTemplate (subject_id session_id age num_t1w num_t2w anat_ref n_bold tasks
    std_spaces nstd_spaces recon_method recon_status : String) : String :=
  "\t<ul class=\"elem-desc\">\n"
    ++ "\t\t<li>Subject ID: " ++ subject_id ++ "</li>\n"
    ++ "\t\t<li>Session ID: " ++ session_id ++ "</li>\n"
    ++ "\t\t<li>Chronological age (months): " ++ age ++ "</li>\n"
    ++ "\t\t<li>Structural images: " ++ num_t1w ++ " T1-weighted, "
    ++ num_t2w ++ " T2-weighted</li>\n"
    ++ "\t\t<li>Anatomical reference space: " ++ anat_ref ++ "<li>\n"
    ++ "\t\t<li>Functional series: " ++ n_bold ++ "</li>\n"
    ++ tasks ++ "\n"
    ++ "\t\t<li>Standard output spaces: " ++ std_spaces ++ "</li>\n"
    ++ "\t\t<li>Non-standard output spaces: " ++ nstd_spaces ++ "</li>\n"
    ++ "\t\t<li>Surface reconstruction method: " ++ recon_method ++ "</li>\n"
    ++ "\t\t<li>Surface reconstruction status: " ++ recon_status ++ "</li>\n"
    ++ "\t</ul>\n"

/-- `SubjectSummary._generate_segment` (reports.py lines 129-219).  The
recon-status branch runs first but an unassigned `recon_status` only raises
when the name is read inside the final `format` call, after the bold series
have been flattened (line 188) and the task counter has been consumed
(line 190); the errors therefore surface in the order `boldIndex`,
`taskMatch`, `reconUnbound`. -/
def subjectGenerateSegment (inp : SubjectInputs) (p : ReconProbe) : Except SegErr String :=
  let rs := reconStatus inp.subjects_dir inp.recon_method p
  match flattenBold (boldList inp) with
  | none => Except.error SegErr.boldIndex
  | some series =>
    match mapOpt seriesTask series with
    | none => Except.error SegErr.taskMatch
    | some tasks =>
      match rs with
      | none => Except.error SegErr.reconUnbound
      | some rstr =>
        Except.ok
          (subjectTemplate inp.subject_id inp.session_id (toString inp.age)
            (toString inp.t1w.length) (toString inp.t2w.length)
            inp.anatomical_reference (toString series.length)
            (tasksBlock (subjectTaskPairs tasks))
            (String.intercalate ", " inp.std_spaces)
            (String.intercalate ", " inp.nstd_spaces)
            (reconMethodName inp.recon_method) rstr)

/-- The task-extraction stage of `subjectGenerateSegment` in isolation. -/
def tasksOf (inp : SubjectInputs) : Option (List String) :=
  match flattenBold (boldList inp) with
  | none => none
  | some series => mapOpt seriesTask series

/-! ### `FUNCTIONAL_TEMPLATE.format(...)` (reports.py lines 43-57 and 314-323)

The repetition time is rendered by the format spec `{tr:.03g}`; floating
point formatting is kept abstract by passing the rendered text. -/

/-- The functional summary segment, assembled from the pieces above. -/
def functionalSegment (ornt trText : String) (pe_direction : Option String)
    (echo_idx : List String) (st : SliceTimingInput) (sdc : String)
    (method : RegMethod) (fallback : Bool) (dof : Nat)
    (dummy_scans : Option Int) (algo_dummy_scans : Int) : Except Unit String :=
  match get_world_pedir ornt pe_direction with
  | Except.error e => Except.error e
  | Except.ok pedir =>
    Except.ok
      ("\t\t<details open>\n\t\t<summary>Summary</summary>\n\t\t<ul class=\"elem-desc\">\n"
        ++ "\t\t\t<li>Original orientation: " ++ ornt ++ "</li>\n"
        ++ "\t\t\t<li>Repetition time (TR): " ++ trText ++ "s</li>\n"
        ++ "\t\t\t<li>Phase-encoding (PE) direction: " ++ pedir.1 ++ "</li>\n"
        ++ "\t\t\t<li>" ++ multiechoMsg echo_idx ++ "</li>\n"
        ++ "\t\t\t<li>Slice timing correction: " ++ stcDesc st ++ "</li>\n"
        ++ "\t\t\t<li>Susceptibility distortion correction: " ++ sdc ++ "</li>\n"
        ++ "\t\t\t<li>Registration: " ++ regDesc method fallback dof ++ "</li>\n"
        ++ "\t\t\t<li>Non-steady-state volumes: " ++ dummyScanMsg dummy_scans algo_dummy_scans
        ++ "</li>\n\t\t</ul>\n\t\t</details>\n")

/-! ### `LabeledHistogram._generate_report` (reports.py lines 356-383)

Voxel values are abstracted to integers (the comparisons and the grouping do
not depend on the float representation); the value image and the (already
resampled) label image are flat lists over the same voxel grid. -/

/-- The label array (reports.py lines 367-373): the supplied label image, or
`np.uint8(data > 0)` when none is supplied. -/
def histLabels (data : List Int) (label_file : Option (List Nat)) : List Nat :=
  match label_file with
  | some ls => ls
  | none => data.map (fun v => if 0 < v then 1 else 0)

/-- An ascending sort of label values (`np.unique` returns sorted values). -/
def sortNats (l : List Nat) : List Nat :=
  List.insertionSort (· ≤ ·) l

/-- `np.unique(labels[labels > 0])` (reports.py line 375): the distinct
strictly positive labels in ascending order. -/
def uniqPosLabels (labels : List Nat) : List Nat :=
  sortNats (uniqNats (labels.filter (fun l => 0 < l)))
where
  /-- distinct values of a list (order irrelevant, sorted afterwards). -/
  uniqNats : List Nat → List Nat
    | [] => []
    | n :: ns => let r := uniqNats ns; if n ∈ r then r else n :: r

/-- `self.inputs.mapping or {label: label for label in uniq_labels}`
(reports.py line 376): an undefined or empty mapping is falsy, so the
identity mapping over the distinct positive labels is used; group keys are
either raw labels or mapped names. -/
def labelMapOf (mapping : Option (List (Nat × String))) (uniq : List Nat) :
    List (Nat × Sum Nat String) :=
  match mapping with
  | none => uniq.map (fun l => (l, Sum.inl l))
  | some [] => uniq.map (fun l => (l, Sum.inl l))
  | some m => m.map (fun p => (p.1, Sum.inr p.2))

/-- `data[labels == label]` (reports.py line 378). -/
def selectVoxels (data : List Int) (labels : List Nat) (l : Nat) : List Int :=
  ((data.zip labels).filter (fun p => p.2 = l)).map Prod.fst

/-- The `rois` dictionary (reports.py line 378) as the list of
(key, voxel values) pairs in iteration order of `label_map`. -/
def histGroups (data : List Int) (label_file : Option (List Nat))
    (mapping : Option (List (Nat × String))) : List (Sum Nat String × List Int) :=
  let labels := histLabels data label_file
  (labelMapOf mapping (uniqPosLabels labels)).map
    (fun p => (p.2, selectVoxels data labels p.1))

/-! ## Claims -/

/-- Claim C6: `FunctionalSummary._generate_segment` maps the slice-timing
input exactly as `True ↦ 'Applied'`, `False ↦ 'Not applied'`,
`'TooShort' ↦ 'Skipped (too few volumes)'`, undefined ↦ `'n/a'`. -/
theorem C6_slice_timing_table :
    stcDesc SliceTimingInput.stTrue = "Applied"
      ∧ stcDesc SliceTimingInput.stFalse = "Not applied"
      ∧ stcDesc SliceTimingInput.tooShort = "Skipped (too few volumes)"
      ∧ stcDesc SliceTimingInput.undef = "n/a" :=
  ⟨rfl, rfl, rfl, rfl⟩

/-- Claim C1, counterexample: with registration method FSL, fallback `true`
and configured `registration_dof = 9`, the selected description is the
hard-coded `FSL <code>flirt</code> rigid registration - 6 dof`, which does
not contain the configured degrees-of-freedom value `9` anywhere. -/
theorem C1_counterexample :
    containsSeq (toString (9 : Nat)).toList (regDesc RegMethod.FSL true 9).toList = false := by
  decide

/-- Claim C1, amended: for every registration method, fallback flag and
configured dof in 6/9/12, the selected registration description contains
the configured degrees-of-freedom value, except in the FSL-with-fallback
case, whose text is fixed at `6 dof` (and hence contains the configured
value only when it is 6). -/
theorem C1_reg_dof_amended (method : RegMethod) (fallback : Bool) (dof : Nat)
    (hdof : dof ∈ [6, 9, 12]) :
    (¬(method = RegMethod.FSL ∧ fallback = true) →
      containsSeq (toString dof).toList (regDesc method fallback dof).toList = true)
    ∧ (method = RegMethod.FSL → fallback = true →
      containsSeq "6 dof".toList (regDesc method fallback dof).toList = true) := by
  simp only [List.mem_cons, List.not_mem_nil, or_false] at hdof
  rcases hdof with rfl | rfl | rfl <;> cases method <;> cases fallback <;>
    refine ⟨fun h => ?_, fun h1 h2 => ?_⟩ <;>
    first
      | decide
      | exact absurd ⟨rfl, rfl⟩ h
      | exact absurd h1 (by decide)
      | exact absurd h2 (by decide)

/-- Witness for C1: at concrete inputs, FreeSurfer with fallback and dof 9
contains `9`, and FSL with fallback and dof 9 contains `6 dof`. -/
theorem C1_reg_dof_amended_witness :
    containsSeq (toString (9 : Nat)).toList (regDesc RegMethod.FreeSurfer true 9).toList = true
      ∧ containsSeq "6 dof".toList (regDesc RegMethod.FSL true 9).toList = true :=
  ⟨(C1_reg_dof_amended RegMethod.FreeSurfer true 9 (by decide)).1 (by decide),
   (C1_reg_dof_amended RegMethod.FSL true 9 (by decide)).2 rfl rfl⟩

/-- Claim C2: the dummy-scan message takes exactly one of three mutually
exclusive forms: user count equal to the detected count gives the count with
a `Confirmed` clause, a present but unequal user count gives the user count
with a `Warning` clause, and an absent user count gives the bare detected
count with no clause. -/
theorem C2_dummy_scan_messages (n algo : Int) :
    dummyScanMsg (some n) algo =
      (if n = algo then
        toString n ++ " (Confirmed: " ++ toString algo ++ " automatically detected)"
      else
        toString n ++ " (Warning: " ++ toString algo ++ " automatically detected)")
    ∧ dummyScanMsg none algo = toString algo := by
  constructor
  · by_cases h : n = algo
    · simp [dummyScanMsg, pyEqOptInt, h]
    · simp [dummyScanMsg, pyEqOptInt, h]
  · rfl

/-- Claim C3: the multi-echo classification depends only on the length of
`echo_idx`: length 1 gives the only-echo single-echo-mode text, length
strictly greater than 2 gives the N-echoes text, and length exactly 2 falls
through to the default single-echo text. -/
theorem C3_multiecho_by_length (es : List String) :
    (es.length = 1 →
      multiechoMsg es =
        "Multi-echo EPI sequence: only echo " ++ es.headD ""
          ++ " processed in single-echo mode.")
    ∧ (2 < es.length →
      multiechoMsg es = "Multi-echo EPI sequence: " ++ toString es.length ++ " echoes.")
    ∧ (es.length = 2 → multiechoMsg es = "Single-echo EPI sequence.") := by
  refine ⟨fun h1 => ?_, fun h2 => ?_, fun h3 => ?_⟩
  · simp [multiechoMsg, h1]
  · have h1 : es.length ≠ 1 := by omega
    simp [multiechoMsg, h1, h2]
  · simp [multiechoMsg, h3]

/-- Witness for C3: the three length cases at concrete echo lists. -/
theorem C3_multiecho_witness :
    multiechoMsg ["2"] = "Multi-echo EPI sequence: only echo 2 processed in single-echo mode."
      ∧ multiechoMsg ["1", "2", "3"] = "Multi-echo EPI sequence: 3 echoes."
      ∧ multiechoMsg ["1", "2"] = "Single-echo EPI sequence." :=
  ⟨(C3_multiecho_by_length ["2"]).1 rfl,
   (C3_multiecho_by_length ["1", "2", "3"]).2.1 (by decide),
   (C3_multiecho_by_length ["1", "2"]).2.2 rfl⟩

/-- Reduction of `get_world_pedir` once the axis lookup succeeds. -/
theorem get_world_pedir_reduce (ornt pe : String) (c : Char) (rest : List Char)
    (idx : Nat) (axcode : Char) (hpe : pe.toList = c :: rest) (hidx : axIdx c = some idx)
    (hget : ornt.toList.get? idx = some axcode) :
    get_world_pedir ornt (some pe) =
      (match findDir axcode (rest = ['-'] : Bool) with
        | some d => Except.ok (d, false)
        | none => Except.ok (couldNotMsg, true)) := by
  simp only [get_world_pedir, hpe, hidx, hget]

/-- The axes loop finds nothing when the orientation letter at the
phase-encoded axis is not the initial of any anatomical direction name. -/
theorem findDir_eq_none_of_unmatched {axcode : Char}
    (h : axcode ∉ ['R', 'L', 'A', 'P', 'S', 'I']) (inv : Bool) :
    findDir axcode inv = none := by
  simp only [List.mem_cons, List.not_mem_nil, or_false, not_or] at h
  obtain ⟨hR, hL, hA, hP, hS, hI⟩ := h
  cases inv <;>
    simp [findDir, flipsList, axesTable, tryFlip, startsWithSeq, dropKey,
      Ne.symm hR, Ne.symm hL, Ne.symm hA, Ne.symm hP, Ne.symm hS, Ne.symm hI]

/-- Claim C4: `get_world_pedir` on an orientation beginning with `L` and
phase-encode direction `i-` returns `Left-Right`; an unspecified (`None`)
direction returns the fallback string with a warning for any orientation;
for any direction in the input enumeration and any orientation triple the
function never raises and only warns with the fallback text; and when the
orientation letter selected by the direction matches no anatomical axis
(it is none of `R`, `L`, `A`, `P`, `S`, `I`), the function actually
returns the fallback string together with the warning. -/
theorem C4_world_pedir :
    (∀ ornt : String, (∃ cs, ornt.toList = 'L' :: cs) →
      get_world_pedir ornt (some "i-") = Except.ok ("Left-Right", false))
    ∧ (∀ ornt : String, get_world_pedir ornt none = Except.ok (couldNotMsg, true))
    ∧ (∀ (ornt pe : String), pe ∈ ["i", "i-", "j", "j-", "k", "k-"] →
        3 ≤ ornt.toList.length →
        ∃ out, get_world_pedir ornt (some pe) = Except.ok out
          ∧ (out.2 = true → out.1 = couldNotMsg))
    ∧ (∀ (ornt pe : String) (c axcode : Char) (rest : List Char) (idx : Nat),
        pe.toList = c :: rest → axIdx c = some idx →
        ornt.toList.get? idx = some axcode →
        axcode ∉ ['R', 'L', 'A', 'P', 'S', 'I'] →
        get_world_pedir ornt (some pe) = Except.ok (couldNotMsg, true)) := by
  refine ⟨?_, ?_, ?_, ?_⟩
  · rintro ⟨data⟩ ⟨cs, hcs⟩
    have hd : data = 'L' :: cs := hcs
    subst hd
    rfl
  · intro ornt
    rfl
  · intro ornt pe hpe hlen
    have step : ∀ (c : Char) (rest : List Char) (idx : Nat), pe.toList = c :: rest →
        axIdx c = some idx → idx < 3 →
        ∃ out, get_world_pedir ornt (some pe) = Except.ok out
          ∧ (out.2 = true → out.1 = couldNotMsg) := by
      intro c rest idx hc hidx hi3
      obtain ⟨axcode, hget⟩ : ∃ axcode, ornt.toList.get? idx = some axcode := by
        rw [List.get?_eq_getElem?, List.getElem?_eq_getElem (by omega)]
        exact ⟨_, rfl⟩
      rw [get_world_pedir_reduce ornt pe c rest idx axcode hc hidx hget]
      cases hfd : findDir axcode (rest = ['-'] : Bool) with
      | some d => exact ⟨(d, false), rfl, by simp⟩
      | none => exact ⟨(couldNotMsg, true), rfl, fun _ => rfl⟩
    simp only [List.mem_cons, List.not_mem_nil, or_false] at hpe
    rcases hpe with rfl | rfl | rfl | rfl | rfl | rfl
    · exact step 'i' [] 0 rfl rfl (by omega)
    · exact step 'i' ['-'] 0 rfl rfl (by omega)
    · exact step 'j' [] 1 rfl rfl (by omega)
    · exact step 'j' ['-'] 1 rfl rfl (by omega)
    · exact step 'k' [] 2 rfl rfl (by omega)
    · exact step 'k' ['-'] 2 rfl rfl (by omega)
  · intro ornt pe c axcode rest idx hpe hidx hget hna
    rw [get_world_pedir_reduce ornt pe c rest idx axcode hpe hidx hget,
      findDir_eq_none_of_unmatched hna _]

/-- Witness for C4: concrete applications at orientations `LAS` and `PSL`,
plus the unmatched orientation `XYZ` with direction `i`, whose letter `X`
matches no axis and which returns the fallback text with the warning. -/
theorem C4_world_pedir_witness :
    get_world_pedir "LAS" (some "i-") = Except.ok ("Left-Right", false)
      ∧ get_world_pedir "PSL" none = Except.ok (couldNotMsg, true)
      ∧ (∃ out, get_world_pedir "LAS" (some "j") = Except.ok out
          ∧ (out.2 = true → out.1 = couldNotMsg))
      ∧ get_world_pedir "XYZ" (some "i") = Except.ok (couldNotMsg, true) :=
  ⟨C4_world_pedir.1 "LAS" ⟨['A', 'S'], rfl⟩,
   C4_world_pedir.2.1 "PSL",
   C4_world_pedir.2.2.1 "LAS" "j" (by decide) (by decide),
   C4_world_pedir.2.2.2 "XYZ" "i" 'i' 'X' [] 0 rfl rfl rfl (by decide)⟩

/-- `recon_status` is left unassigned exactly when the subjects directory is
truthy and the reconstruction method is `None`. -/
theorem reconStatus_eq_none_iff (sd : Option String) (m : ReconMethod) (p : ReconProbe) :
    reconStatus sd m p = none ↔ (configuredDir sd = true ∧ m = ReconMethod.rmNone) := by
  cases hc : configuredDir sd <;> cases m <;> simp [reconStatus, hc]

/-- `mapOpt` fails exactly when some element fails. -/
theorem mapOpt_eq_none_iff (f : α → Option β) (l : List α) :
    mapOpt f l = none ↔ ∃ a ∈ l, f a = none := by
  induction l with
  | nil => simp [mapOpt]
  | cons a l ih =>
    cases hfa : f a <;> cases hrest : mapOpt f l <;>
      simp_all [mapOpt, hfa, hrest]

/-- Claim C7: when no surface-reconstruction subjects directory is
configured (trait undefined or empty), the reconstruction status is
`Not run` regardless of the configured method, and any segment the
interface produces renders `Not run` in the status slot of the template. -/
theorem C7_not_run (inp : SubjectInputs) (p : ReconProbe)
    (h : configuredDir inp.subjects_dir = false) :
    reconStatus inp.subjects_dir inp.recon_method p = some "Not run"
    ∧ ∀ s, subjectGenerateSegment inp p = Except.ok s →
        ∃ series tasks, s = subjectTemplate inp.subject_id inp.session_id
          (toString inp.age) (toString inp.t1w.length) (toString inp.t2w.length)
          inp.anatomical_reference (toString (List.length (α := String) series))
          (tasksBlock (subjectTaskPairs tasks))
          (String.intercalate ", " inp.std_spaces)
          (String.intercalate ", " inp.nstd_spaces)
          (reconMethodName inp.recon_method) "Not run" := by
  have hrs : reconStatus inp.subjects_dir inp.recon_method p = some "Not run" := by
    simp [reconStatus, h]
  refine ⟨hrs, fun s hs => ?_⟩
  unfold subjectGenerateSegment at hs
  cases hf : flattenBold (boldList inp) with
  | none => simp [hf] at hs
  | some series =>
    cases hm : mapOpt seriesTask series with
    | none => simp [hf, hm] at hs
    | some tasks =>
      simp only [hf, hm, hrs, Except.ok.injEq] at hs
      exact ⟨series, tasks, hs.symm⟩

/-- Witness for C7: an unset subjects directory with the mcribs method. -/
theorem C7_not_run_witness :
    reconStatus none ReconMethod.mcribs (ReconProbe.mk false false false) = some "Not run" :=
  (C7_not_run
    (SubjectInputs.mk [] [] none "01" "" "T1w" none [] [] ReconMethod.mcribs 0)
    (ReconProbe.mk false false false) rfl).1

/-- Claim C9: segment generation reaches the template only when the subjects
directory is unset or the method is one of the three named ones; with a
configured directory and method `None` no branch assigns `recon_status` and
generation fails with the unbound-variable error (provided the earlier bold
and task stages did not already raise), and that error cannot occur
otherwise. -/
theorem C9_unbound_recon_status (inp : SubjectInputs) (p : ReconProbe) :
    (configuredDir inp.subjects_dir = true → inp.recon_method = ReconMethod.rmNone →
      (∃ tasks, tasksOf inp = some tasks) →
      subjectGenerateSegment inp p = Except.error SegErr.reconUnbound)
    ∧ (inp.recon_method ≠ ReconMethod.rmNone →
      subjectGenerateSegment inp p ≠ Except.error SegErr.reconUnbound)
    ∧ (configuredDir inp.subjects_dir = false →
      subjectGenerateSegment inp p ≠ Except.error SegErr.reconUnbound) := by
  have main : ∀ hrs : Option String, reconStatus inp.subjects_dir inp.recon_method p = hrs →
      (hrs = none → (∃ tasks, tasksOf inp = some tasks) →
        subjectGenerateSegment inp p = Except.error SegErr.reconUnbound)
      ∧ (hrs ≠ none → subjectGenerateSegment inp p ≠ Except.error SegErr.reconUnbound) := by
    intro hrs hrseq
    unfold subjectGenerateSegment tasksOf
    cases hf : flattenBold (boldList inp) with
    | none => simp [hf]
    | some series =>
      cases hm : mapOpt seriesTask series with
      | none => simp [hf, hm]
      | some tasks =>
        rw [hrseq]
        cases hrs with
        | none => simp [hf, hm]
        | some r => simp [hf, hm]
  refine ⟨fun h1 h2 ht => ?_, fun h1 => ?_, fun h1 => ?_⟩
  · exact (main none ((reconStatus_eq_none_iff _ _ _).mpr ⟨h1, h2⟩)).1 rfl ht
  · refine (main _ rfl).2 (fun hn => ?_)
    exact h1 ((reconStatus_eq_none_iff _ _ _).mp hn).2
  · refine (main _ rfl).2 (fun hn => ?_)
    rw [((reconStatus_eq_none_iff _ _ _).mp hn).1] at h1
    exact Bool.noConfusion h1

/-- Witness for C9: a set subjects directory with method `None` and no bold
series fails with the unbound-variable error. -/
theorem C9_unbound_recon_status_witness :
    subjectGenerateSegment
      (SubjectInputs.mk [] [] (some "/out/sfs") "01" "" "T1w" none [] [] ReconMethod.rmNone 0)
      (ReconProbe.mk false false false) = Except.error SegErr.reconUnbound :=
  (C9_unbound_recon_status _ _).1 rfl rfl ⟨[], rfl⟩

/-- Claim C10: if any flattened bold series path yields no task identifier
from the BIDS pattern, segment generation raises (the slice of `None`) and
no HTML segment is produced. -/
theorem C10_missing_task_raises (inp : SubjectInputs) (p : ReconProbe)
    (series : List String) (hf : flattenBold (boldList inp) = some series)
    (hbad : ∃ s ∈ series, seriesTask s = none) :
    subjectGenerateSegment inp p = Except.error SegErr.taskMatch := by
  have hm : mapOpt seriesTask series = none := (mapOpt_eq_none_iff _ _).mpr hbad
  unfold subjectGenerateSegment
  simp [hf, hm]

/-- Witness for C10: a bold series without a `task-` entity aborts segment
generation with the task error. -/
theorem C10_missing_task_raises_witness :
    subjectGenerateSegment
      (SubjectInputs.mk [] [] none "01" "" "T1w" (some [Sum.inl "sub-01_bold.nii"]) [] []
        ReconMethod.rmNone 0)
      (ReconProbe.mk false false false) = Except.error SegErr.taskMatch :=
  C10_missing_task_raises _ _ ["sub-01_bold.nii"] rfl
    ⟨"sub-01_bold.nii", List.mem_singleton.mpr rfl, by decide⟩

/-- `uniqNats` of a nonempty list whose elements are all `1` is `[1]`. -/
theorem uniqNats_all_one : ∀ {l : List Nat}, (∀ x ∈ l, x = 1) → l ≠ [] →
    uniqPosLabels.uniqNats l = [1] := by
  intro l
  induction l with
  | nil => intro _ h2; exact absurd rfl h2
  | cons a rest ih =>
    intro h1 _
    have ha : a = 1 := h1 a (List.mem_cons_self a rest)
    subst ha
    by_cases hr : rest = []
    · subst hr; rfl
    · have hrest := ih (fun x hx => h1 x (List.mem_cons_of_mem _ hx)) hr
      simp [uniqPosLabels.uniqNats, hrest]

/-- Every strictly positive entry of the binary indicator label array is 1. -/
theorem binary_filter_all_one (data : List Int) :
    ∀ x ∈ (data.map (fun v => if 0 < v then (1 : Nat) else 0)).filter (fun l => 0 < l),
      x = 1 := by
  intro x hx
  rw [List.mem_filter] at hx
  obtain ⟨hmem, hpos⟩ := hx
  rw [List.mem_map] at hmem
  obtain ⟨v, _, hv⟩ := hmem
  by_cases h : 0 < v
  · rw [if_pos h] at hv; exact hv.symm
  · rw [if_neg h] at hv; subst hv; simp at hpos

/-- With at least one strictly positive voxel, the filtered binary label
array is nonempty. -/
theorem binary_filter_ne_nil {data : List Int} (h : ∃ v ∈ data, 0 < v) :
    (data.map (fun v => if 0 < v then (1 : Nat) else 0)).filter (fun l => 0 < l) ≠ [] := by
  obtain ⟨v, hv, hpos⟩ := h
  refine List.ne_nil_of_mem (a := 1) ?_
  rw [List.mem_filter]
  exact ⟨List.mem_map.mpr ⟨v, hv, by rw [if_pos hpos]⟩, by decide⟩

/-- Selecting the voxels labelled 1 by the binary indicator recovers exactly
the strictly positive voxels. -/
theorem selectVoxels_binary (data : List Int) :
    selectVoxels data (data.map (fun v => if 0 < v then 1 else 0)) 1 =
      data.filter (fun v => 0 < v) := by
  induction data with
  | nil => rfl
  | cons v rest ih =>
    by_cases h : 0 < v <;>
      simp_all [selectVoxels, List.filter_cons, h]

/-- Claim C8, counterexample: with no label image, an image with no strictly
positive voxel yields zero groups (not exactly one), and a supplied mapping
determines the groups instead of the binary label 1. -/
theorem C8_counterexample :
    (histGroups [0, -1] none none).length ≠ 1
      ∧ histGroups [3] none (some [(5, "x")]) ≠ [(Sum.inl 1, [3])] := by
  exact ⟨by decide, by decide⟩

/-- Claim C8, amended: when no label image is supplied the label array is the
binary indicator of strictly positive values, and when additionally no
mapping is supplied and at least one voxel is strictly positive, exactly one
group is formed: label 1 with the strictly positive voxels. -/
theorem C8_binary_label_groups_amended (data : List Int) (hpos : ∃ v ∈ data, 0 < v) :
    histLabels data none = data.map (fun v => if 0 < v then 1 else 0)
    ∧ histGroups data none none = [(Sum.inl 1, data.filter (fun v => 0 < v))] := by
  refine ⟨rfl, ?_⟩
  have huniq : uniqPosLabels (data.map (fun v => if 0 < v then 1 else 0)) = [1] := by
    unfold uniqPosLabels
    rw [uniqNats_all_one (binary_filter_all_one data) (binary_filter_ne_nil hpos)]
    rfl
  unfold histGroups
  simp only [histLabels, huniq, labelMapOf, List.map_cons, List.map_nil]
  rw [selectVoxels_binary]

/-- Witness for C8: a concrete image with positive voxels 3 and 5. -/
theorem C8_binary_label_groups_witness :
    histGroups [3, -1, 0, 5] none none = [(Sum.inl 1, [3, 5])] :=
  (C8_binary_label_groups_amended [3, -1, 0, 5]
    ⟨3, List.mem_cons_self 3 _, by decide⟩).2

/-- `uniqKeys` has the same members as the underlying list. -/
theorem mem_uniqKeys {t : String} : ∀ {l : List String}, t ∈ uniqKeys l ↔ t ∈ l := by
  intro l
  induction l with
  | nil => simp [uniqKeys]
  | cons a l ih =>
    simp only [uniqKeys]
    by_cases h : a ∈ uniqKeys l
    · constructor
      · intro ht
        simp only [h, if_pos] at ht
        exact List.mem_cons_of_mem a (ih.mp ht)
      · intro ht
        simp only [h, if_pos]
        rcases List.mem_cons.mp ht with rfl | ht
        · exact h
        · exact ih.mpr ht
    · simp only [h, if_neg, not_false_iff, List.mem_cons, ih]

/-- `uniqKeys` has no duplicates. -/
theorem uniqKeys_nodup (l : List String) : (uniqKeys l).Nodup := by
  induction l with
  | nil => simp [uniqKeys]
  | cons a l ih =>
    simp only [uniqKeys]
    by_cases h : a ∈ uniqKeys l
    · simpa [h]
    · rw [if_neg h]
      exact List.nodup_cons.mpr ⟨h, ih⟩

/-- The multiplicity of a task in the extracted list equals the number of
input series that carry that task. -/
theorem count_eq_countP_of_mapOpt (f : α → Option β) [DecidableEq β] :
    ∀ (l : List α) (res : List β), mapOpt f l = some res →
      ∀ y : β, res.count y = l.countP (fun s => decide (f s = some y)) := by
  intro l
  induction l with
  | nil =>
    intro res h y
    simp only [mapOpt, Option.some.injEq] at h
    subst h
    simp
  | cons a l ih =>
    intro res h y
    cases hfa : f a with
    | none => simp [mapOpt, hfa] at h
    | some b =>
      cases hrest : mapOpt f l with
      | none => simp [mapOpt, hfa, hrest] at h
      | some bs =>
        simp only [mapOpt, hfa, hrest, Option.some.injEq] at h
        subst h
        rw [List.count_cons, List.countP_cons, ih bs hrest y]
        by_cases hby : b = y <;> simp [hby, hfa]

/-- Claim C5: for input series whose filenames all encode a task, the task
pairs used to emit the task lines carry, for each task, the number of input
series with that task; every input task appears; and the pairs (hence the
emitted lines) are in alphabetical order of distinct task identifiers. -/
theorem C5_task_run_counts (series tasks : List String)
    (h : mapOpt seriesTask series = some tasks) :
    (∀ t n, (t, n) ∈ subjectTaskPairs tasks →
      n = series.countP (fun s => decide (seriesTask s = some t)))
    ∧ (∀ t, t ∈ tasks → ∃ n, (t, n) ∈ subjectTaskPairs tasks)
    ∧ List.Sorted (· ≤ ·) ((subjectTaskPairs tasks).map Prod.fst)
    ∧ ((subjectTaskPairs tasks).map Prod.fst).Nodup := by
  have hperm : List.Perm (subjectTaskPairs tasks) (counterItems tasks) :=
    List.perm_insertionSort _ _
  refine ⟨?_, ?_, ?_, ?_⟩
  · intro t n hmem
    have hmem2 : (t, n) ∈ counterItems tasks := hperm.mem_iff.mp hmem
    simp only [counterItems, List.mem_map, Prod.mk.injEq] at hmem2
    obtain ⟨u, _, rfl, rfl⟩ := hmem2
    exact count_eq_countP_of_mapOpt seriesTask series tasks h u
  · intro t ht
    refine ⟨tasks.count t, hperm.mem_iff.mpr ?_⟩
    simp only [counterItems, List.mem_map]
    exact ⟨t, mem_uniqKeys.mpr ht, rfl⟩
  · have hs : List.Sorted taskLe (subjectTaskPairs tasks) :=
      List.sorted_insertionSort taskLe _
    exact List.Pairwise.map Prod.fst (fun a b hab => hab) hs
  · rw [List.Perm.nodup_iff (hperm.map Prod.fst)]
    have hck : (counterItems tasks).map Prod.fst = uniqKeys tasks := by
      simp only [counterItems, List.map_map]
      exact List.map_id _
    rw [hck]
    exact uniqKeys_nodup tasks

/-- Witness for C5: three series over tasks `b`, `a`, `b` give count 2 for
task `b`. -/
theorem C5_task_run_counts_witness :
    (2 : Nat) = List.countP (fun s => decide (seriesTask s = some "b"))
      ["sub-01_task-b_bold.nii", "sub-01_task-a_bold.nii", "sub-01_task-b_run-2_bold.nii"] :=
  (C5_task_run_counts
    ["sub-01_task-b_bold.nii", "sub-01_task-a_bold.nii", "sub-01_task-b_run-2_bold.nii"]
    ["b", "a", "b"] (by decide)).1 "b" 2 (by decide)

end Reports
